import Mathlib

/-!
Shallow embedding of the TaskOn embed SDK bridge core (`src/src/embed.ts`,
the `AuthType`/`isAuthorized` protocol variant of the `TaskOnEmbed` class).

Modelling conventions:

* JS `Record`/`Map` values are association lists over `String` keys; `set`
  replaces the first occurrence of a key (appending fresh keys at the end,
  matching JS insertion order), `get` returns the first match, `delete`
  removes the first match.
* The host `window` global is a read-only association list of `WinVal`s
  passed to each operation at call time (the source reads `window` live on
  every call).
* A method of the class is embedded as a function from the instance state
  (`EmbedState`) to a pair of the post-state and an `Except`-valued result;
  a JS `throw` is `Except.error msg` and, since every `throw` in the
  modelled methods occurs before any field assignment, the state component
  on an error path is the unchanged input state.
* A remote (penpal) call is represented by the message record the host
  hands to the guest proxy; the guest's response is not an input of any
  host method, so host-state effects are independent of it.
* A forwarding handler closure created by `subscribeWalletEvents` is a
  `Handler` record; the `stamp` field distinguishes the distinct closures
  the source allocates on each call.  Listeners attached to a provider via
  `provider.on` are tracked in the `provListeners` field, keyed by the
  provider object's identity (`Provider.id`).
-/

namespace TaskonEmbed

/-- Association-list lookup, modelling JS `Record`/`Map` key access
(first match wins). -/
def alistGet {α : Type} (k : String) : List (String × α) → Option α
  | [] => none
  | (k₁, v) :: rest => if k₁ = k then some v else alistGet k rest

/-- Association-list update, modelling JS `Record`/`Map` assignment:
replaces the first occurrence of the key, appends fresh keys at the end. -/
def alistSet {α : Type} (k : String) (v : α) : List (String × α) → List (String × α)
  | [] => [(k, v)]
  | (k₁, v₁) :: rest => if k₁ = k then (k, v) :: rest else (k₁, v₁) :: alistSet k v rest

/-- Association-list removal, modelling JS `Map.delete` (first match). -/
def alistDelete {α : Type} (k : String) : List (String × α) → List (String × α)
  | [] => []
  | (k₁, v₁) :: rest => if k₁ = k then rest else (k₁, v₁) :: alistDelete k rest

/-- Key list of an association list, modelling JS `Object.keys` /
`Map.keys` in insertion order. -/
def alistKeys {α : Type} (l : List (String × α)) : List String :=
  l.map Prod.fst

/-- Removal of the first occurrence of an element, modelling
`EventEmitter.removeListener(event, handler)` detaching one registration
of that exact handler. -/
def removeFirst {α : Type} [DecidableEq α] (x : α) : List α → List α
  | [] => []
  | y :: rest => if y = x then rest else y :: removeFirst x rest

/-- Well-formedness of an association list: its keys are pairwise
distinct, as is automatic for a JS `Map`. -/
def keysNodup {α : Type} (l : List (String × α)) : Prop :=
  (l.map Prod.fst).Nodup

/-- An EIP-1193-style wallet provider object on the host window.  `id` is
the object's identity; the two flags record whether the object exposes
`on` and `removeListener` (the source feature-tests both). -/
structure Provider where
  id : String
  hasOn : Bool
  hasRemoveListener : Bool
  deriving DecidableEq, Repr

/-- A value reachable on the host window: a provider capability or a plain
nested object (e.g. `window.bitkeep` holding `bitkeep.ethereum`). -/
inductive WinVal where
  | prov (p : Provider)
  | obj (fields : List (String × WinVal))

/-- Property access `v[key]` on a window value; plain objects expose their
fields, a provider leaf has no modelled sub-objects. -/
def fieldGet (k : String) : WinVal → Option WinVal
  | WinVal.prov _ => none
  | WinVal.obj fs => alistGet k fs

/-- Embedding of `providerKey.includes(".")`, computed on the character
list (the string's code points). -/
def containsDot (s : String) : Bool :=
  s.data.contains '.'

/-- Accumulator loop of `splitOnDot`: collects the current segment until a
dot is met, as `String.prototype.split(".")` does. -/
def splitOnDotAux : List Char → List Char → List String
  | [], acc => [String.mk acc.reverse]
  | c :: rest, acc =>
    if c = '.' then
      String.mk acc.reverse :: splitOnDotAux rest []
    else
      splitOnDotAux rest (c :: acc)

/-- Embedding of `providerKey.split(".")` for the single-character
separator the source uses. -/
def splitOnDot (s : String) : List String :=
  splitOnDotAux s.data []

/-- Traversal loop of `getOriginalProvider`: `provider = provider?.[key];
if (!provider) return null;` repeated over the split segments. -/
def traverse : WinVal → List String → Option WinVal
  | v, [] => some v
  | v, k :: ks =>
    match fieldGet k v with
    | none => none
    | some v₁ => traverse v₁ ks

/-- Embedding of `getOriginalProvider(providerKey)` (embed.ts lines
589-605): dotted keys are split on "." and traversed segment by segment
from the window, any absent segment yielding `null`; plain keys are a
direct window lookup. -/
def getOriginalProvider (win : List (String × WinVal)) (providerKey : String) : Option WinVal :=
  if containsDot providerKey then
    traverse (WinVal.obj win) (splitOnDot providerKey)
  else
    alistGet providerKey win

/-- A forwarding handler closure allocated by `subscribeWalletEvents`; it
captures the triple it forwards and `stamp` distinguishes distinct
closures created for the same triple. -/
structure Handler where
  stamp : Nat
  providerKey : String
  eventName : String
  listenerId : String
  deriving DecidableEq, Repr

/-- Message forwarded to the guest by a handler firing
(`penpal.onWalletEvent(providerKey, eventName, listenerId, ...args)`). -/
structure ForwardMsg where
  providerKey : String
  eventName : String
  listenerId : String
  args : List String
  deriving DecidableEq, Repr

/-- Instance state of the `TaskOnEmbed` class: one Bool/Option field per
nullable private field of the source, plus `provListeners` tracking the
listeners currently attached to host providers via `provider.on` and
`nextStamp` as the allocator for fresh handler closures. -/
structure EmbedState where
  iframeAttached : Bool
  containerSet : Bool
  iframeInContainer : Bool
  penpal : Bool
  penpalConnection : Bool
  connectedProvider : Option Provider
  connectedAddress : String
  initialized : Bool
  currentRoute : String
  availableProviders : List (String × WinVal)
  eventListeners : List (String × List (String × Handler))
  walletWatcher : Option Nat
  provListeners : List (String × String × Handler)
  nextStamp : Nat

/-- Field values a freshly constructed `TaskOnEmbed` instance starts
from (the initializers of the class fields). -/
def initialState : EmbedState where
  iframeAttached := false
  containerSet := false
  iframeInContainer := false
  penpal := false
  penpalConnection := false
  connectedProvider := none
  connectedAddress := ""
  initialized := false
  currentRoute := ""
  availableProviders := []
  eventListeners := []
  walletWatcher := none
  provListeners := []
  nextStamp := 0

/-- Embedding of `destroy()` (embed.ts lines 263-282): removes the iframe
from its container when both are present, nulls iframe/container, destroys
the penpal connection, nulls the proxy, resets `initialized`,
`_currentRoute`, `availableProviders`, clears `eventListeners`, and stops
the wallet watcher.  The source does not touch `connectedAddress`,
`connectedProvider`, nor does it detach handlers attached to host
providers, so those fields carry over.  No path of the source throws. -/
def destroy (s : EmbedState) : EmbedState :=
  { s with
    iframeInContainer := if s.iframeAttached && s.containerSet then false else s.iframeInContainer
    iframeAttached := false
    containerSet := false
    penpalConnection := false
    penpal := false
    initialized := false
    currentRoute := ""
    availableProviders := []
    eventListeners := []
    walletWatcher := none }

/-- Authentication types of the `AuthType` union in types.ts. -/
inductive AuthType where
  | Email
  | WalletAddress
  deriving DecidableEq, Repr

/-- Login request parameters (`LoginParams` in types.ts); optional fields
are `Option`s and the optional provider is the capability object. -/
structure LoginParams where
  type : AuthType
  account : String
  signature : Option String
  timestamp : Option Nat
  username : Option String
  provider : Option Provider
  deriving DecidableEq, Repr

/-- Message the host sends to the guest's `login` method: exactly the five
fields the source forwards (the provider is not forwarded). -/
structure LoginMsg where
  type : AuthType
  account : String
  signature : Option String
  timestamp : Option Nat
  username : Option String
  deriving DecidableEq, Repr

/-- Projection of a login request onto the remote login message built at
embed.ts lines 124-130. -/
def loginMsg (r : LoginParams) : LoginMsg :=
  ⟨r.type, r.account, r.signature, r.timestamp, r.username⟩

/-- Error message thrown by every guest-delegating method when the remote
proxy is not yet established. -/
def notInitializedMsg : String :=
  "Not initialized, please call .init() first"

/-- Error message thrown by `login` for a WalletAddress request without a
provider. -/
def walletProviderRequiredMsg : String :=
  "The eip1193 compatible provider is required when login type is WalletAddress"

/-- Embedding of `login(request)` (embed.ts lines 107-131): fails when the
proxy is absent; for WalletAddress logins fails when no provider is given,
otherwise writes `connectedAddress`/`connectedProvider`; all other login
types clear both fields; finally issues the remote login call.  The
returned state is the state in which the remote call is issued and also
the method's final state: the source performs no mutation after the call,
so a guest-side rejection leaves the written fields in place. -/
def login (s : EmbedState) (request : LoginParams) :
    EmbedState × Except String LoginMsg :=
  if s.penpal = false then
    (s, Except.error notInitializedMsg)
  else
    match request.type, request.provider with
    | AuthType.WalletAddress, none =>
      (s, Except.error walletProviderRequiredMsg)
    | AuthType.WalletAddress, some p =>
      ({ s with connectedAddress := request.account, connectedProvider := some p },
       Except.ok (loginMsg request))
    | AuthType.Email, _ =>
      ({ s with connectedAddress := "", connectedProvider := none },
       Except.ok (loginMsg request))

/-- Message the host sends to the guest's `logout` method. -/
structure LogoutMsg where
  clearAuth : Bool
  deriving DecidableEq, Repr

/-- Embedding of `logout(options)` (embed.ts lines 152-159): fails when the
proxy is absent, otherwise forwards `clearAuth ?? false`. -/
def logout (s : EmbedState) (clearAuth : Option Bool) :
    EmbedState × Except String LogoutMsg :=
  if s.penpal = false then
    (s, Except.error notInitializedMsg)
  else
    (s, Except.ok ⟨clearAuth.getD false⟩)

/-- Embedding of `isAuthorized(authType, account)` (embed.ts lines
182-191): fails when the proxy is absent, otherwise forwards the query. -/
def isAuthorized (s : EmbedState) (authType : AuthType) (account : String) :
    EmbedState × Except String (AuthType × String) :=
  if s.penpal = false then
    (s, Except.error notInitializedMsg)
  else
    (s, Except.ok (authType, account))

/-- Embedding of `setRoute(fullPath)` (embed.ts lines 204-209): fails when
the proxy is absent, otherwise forwards the path. -/
def setRoute (s : EmbedState) (fullPath : String) :
    EmbedState × Except String String :=
  if s.penpal = false then
    (s, Except.error notInitializedMsg)
  else
    (s, Except.ok fullPath)

/-- Path map of `requestOauth` (embed.ts lines 471-476); names outside the
map yield `none`. -/
def snsPathMap (snsType : String) : Option String :=
  match snsType with
  | "twitter" => some "/twitter"
  | "discord" => some "/discord"
  | "telegram" => some "/telegram"
  | "reddit" => some "/reddit"
  | _ => none

/-- Navigation target built by `requestOauth`: the base URL
`oauthToolUrl + providerPath` with the `state` and `from` query
parameters. -/
structure OauthUrl where
  base : String
  state : String
  fromHref : String
  deriving DecidableEq, Repr

/-- Observable effect of a successful `requestOauth` call: the contents of
the `taskon_saved_route` storage slot after the call and the URL assigned
to `window.location.href`. -/
structure OauthEffect where
  savedRoute : Option String
  navigation : OauthUrl
  deriving DecidableEq, Repr

/-- Embedding of the `requestOauth` guest-callable (embed.ts lines
470-495): an unmapped name throws before any storage write or navigation;
otherwise the current route is persisted into the saved-route slot only
when it is non-empty (`if (this._currentRoute)`), and the page navigates
to the OAuth tool URL (defaulted when unconfigured) with the provider
path and the `state`/`from` parameters.  `savedRoute` is the slot's
contents before the call, `locationHref` the current page address. -/
def requestOauth (oauthToolUrl : Option String) (s : EmbedState)
    (savedRoute : Option String) (snsType state locationHref : String) :
    Except String OauthEffect :=
  match snsPathMap snsType with
  | none => Except.error ("Invalid sns type: " ++ snsType)
  | some path =>
    let savedRoute₁ := if s.currentRoute ≠ "" then some s.currentRoute else savedRoute
    let toolUrl := oauthToolUrl.getD "https://stage.generalauthservice.com"
    Except.ok ⟨savedRoute₁, ⟨toolUrl ++ path, state, locationHref⟩⟩

/-- Embedding of `detectWalletProviders()` (embed.ts lines 332-353): a
fixed scan of `window.ethereum`, `window.okxwallet`, `window.onto` and the
nested `window.bitkeep?.ethereum`, keeping only present values, in the
source's insertion order. -/
def detectWalletProviders (win : List (String × WinVal)) : List (String × WinVal) :=
  (match alistGet "ethereum" win with
   | some v => [("ethereum", v)]
   | none => []) ++
  (match alistGet "okxwallet" win with
   | some v => [("okxwallet", v)]
   | none => []) ++
  (match alistGet "onto" win with
   | some v => [("onto", v)]
   | none => []) ++
  (match alistGet "bitkeep" win with
   | some v =>
     match fieldGet "ethereum" v with
     | some v₁ => [("bitkeep.ethereum", v₁)]
     | none => []
   | none => [])

/-- Key-set difference of one watcher tick (embed.ts lines 304-311): the
freshly detected keys absent from the registry's existing key set. -/
def newProviderKeys (win : List (String × WinVal)) (s : EmbedState) : List String :=
  (alistKeys (detectWalletProviders win)).filter
    (fun k => !(alistKeys s.availableProviders).contains k)

/-- Registry contents after the additions of one watcher tick (embed.ts
lines 316-321): every newly appeared key whose detected value is present
is assigned into `availableProviders`. -/
def updatedProviders (win : List (String × WinVal)) (s : EmbedState) :
    List (String × WinVal) :=
  (newProviderKeys win s).foldl
    (fun acc k =>
      match alistGet k (detectWalletProviders win) with
      | some v => alistSet k v acc
      | none => acc)
    s.availableProviders

/-- Embedding of one tick of the wallet-provider watcher (embed.ts lines
301-327) together with `notifyIframeOfProviders` (lines 358-377): re-runs
detection, diffs the key sets, appends every newly appeared key to the
registry, and — only when something new appeared and the iframe and proxy
guards of `notifyIframeOfProviders` pass — sends the guest the full
current key list.  The second component is the key list passed to
`setupWalletProviders`, `none` when no notification is sent. -/
def watcherTick (win : List (String × WinVal)) (s : EmbedState) :
    EmbedState × Option (List String) :=
  if (newProviderKeys win s).isEmpty then
    (s, none)
  else
    let s₁ := { s with availableProviders := updatedProviders win s }
    if s₁.iframeAttached && s₁.penpal then
      (s₁, some (alistKeys s₁.availableProviders))
    else
      (s₁, none)

/-- Embedding of the `requestWalletProvider` guest-callable (embed.ts
lines 512-524): resolves the provider from the live window; an unresolved
key throws "Provider ... not found", a resolved value receives the
`request({method, params})` dispatch (represented by the returned
triple). -/
def requestWalletProvider (win : List (String × WinVal))
    (providerKey method : String) (params : List String) :
    Except String (WinVal × String × List String) :=
  match getOriginalProvider win providerKey with
  | none => Except.error ("Provider " ++ providerKey ++ " not found")
  | some v => Except.ok (v, method, params)

/-- Outer key of the handler bookkeeping map for a provider, the literal
template string of the source. -/
def handlersKey (providerKey : String) : String :=
  providerKey ++ ":handlers"

/-- Inner key of the handler bookkeeping map for an event/listener pair,
the literal template string of the source. -/
def eventKey (eventName listenerId : String) : String :=
  eventName ++ ":" ++ listenerId

/-- Embedding of the `subscribeWalletEvents` guest-callable (embed.ts
lines 525-559): resolves the provider from the live window and returns
unchanged when it is absent or lacks `on`; otherwise allocates a fresh
forwarding closure, ensures the outer bookkeeping entry exists, overwrites
the inner slot for the event/listener pair, and attaches the closure to
the provider via `on` (the source never detaches a previously stored
closure). -/
def subscribeWalletEvents (win : List (String × WinVal)) (s : EmbedState)
    (providerKey eventName listenerId : String) : EmbedState :=
  match getOriginalProvider win providerKey with
  | some (WinVal.prov p) =>
    if p.hasOn then
      let handler : Handler := ⟨s.nextStamp, providerKey, eventName, listenerId⟩
      let els :=
        if (alistGet (handlersKey providerKey) s.eventListeners).isNone then
          alistSet (handlersKey providerKey) [] s.eventListeners
        else
          s.eventListeners
      let handlerMap := (alistGet (handlersKey providerKey) els).getD []
      { s with
        eventListeners :=
          alistSet (handlersKey providerKey)
            (alistSet (eventKey eventName listenerId) handler handlerMap) els
        provListeners := s.provListeners ++ [(p.id, eventName, handler)]
        nextStamp := s.nextStamp + 1 }
    else
      s
  | some (WinVal.obj _) => s
  | none => s

/-- Embedding of the `unsubscribeWalletEvents` guest-callable (embed.ts
lines 560-575): requires a resolved provider with `removeListener` and an
existing bookkeeping map; when the inner slot holds a handler, detaches
exactly that handler from the provider and deletes the slot; every other
case is a no-op. -/
def unsubscribeWalletEvents (win : List (String × WinVal)) (s : EmbedState)
    (providerKey eventName listenerId : String) : EmbedState :=
  match getOriginalProvider win providerKey,
        alistGet (handlersKey providerKey) s.eventListeners with
  | some (WinVal.prov p), some m =>
    if p.hasRemoveListener then
      match alistGet (eventKey eventName listenerId) m with
      | some handler =>
        { s with
          provListeners := removeFirst (p.id, eventName, handler) s.provListeners
          eventListeners :=
            alistSet (handlersKey providerKey)
              (alistDelete (eventKey eventName listenerId) m) s.eventListeners }
      | none => s
    else
      s
  | _, _ => s

/-- Body of one forwarding closure firing (embed.ts lines 536-548): when
the proxy is present the captured triple and the event arguments are
forwarded to the guest, otherwise nothing is sent. -/
def handlerRun (s : EmbedState) (h : Handler) (args : List String) : List ForwardMsg :=
  if s.penpal then
    [⟨h.providerKey, h.eventName, h.listenerId, args⟩]
  else
    []

/-- Firing of a provider event: every listener attached to that provider
for that event runs its closure in attachment order, as an
`EventEmitter`-style provider does. -/
def fireEvent (s : EmbedState) (providerId eventName : String)
    (args : List String) : List ForwardMsg :=
  ((s.provListeners.filter
      (fun e => e.1 == providerId && e.2.1 == eventName)).map
    (fun e => handlerRun s e.2.2 args)).flatten

/-- Listeners currently attached to any host provider whose forwarding
closure carries the given (providerKey, eventName, listenerId) triple. -/
def tripleListeners (s : EmbedState) (pk ev lid : String) :
    List (String × String × Handler) :=
  s.provListeners.filter
    (fun e => e.2.2.providerKey == pk && e.2.2.eventName == ev && e.2.2.listenerId == lid)

/-- Sample provider object standing for `window.ethereum`. -/
def ethProv : Provider :=
  ⟨"window.ethereum", true, true⟩

/-- Sample window exposing only `window.ethereum`. -/
def ethWin : List (String × WinVal) :=
  [("ethereum", WinVal.prov ethProv)]

/-- Sample instance state after a completed `init()` handshake. -/
def readyState : EmbedState :=
  { initialState with
    iframeAttached := true
    containerSet := true
    iframeInContainer := true
    penpal := true
    penpalConnection := true
    initialized := true }

/-- Sample dirty instance state: handshake completed, a wallet login
performed, a route reported, one provider detected and one event
subscription installed. -/
def dirtyState : EmbedState :=
  { readyState with
    connectedAddress := "0xabc"
    connectedProvider := some ethProv
    currentRoute := "/task/1"
    availableProviders := [("ethereum", WinVal.prov ethProv)]
    eventListeners :=
      [(handlersKey "ethereum",
        [(eventKey "accountsChanged" "L1", ⟨0, "ethereum", "accountsChanged", "L1"⟩)])]
    walletWatcher := some 7
    provListeners := [(ethProv.id, "accountsChanged", ⟨0, "ethereum", "accountsChanged", "L1"⟩)]
    nextStamp := 1 }

/-- Sample email login request. -/
def emailReq : LoginParams :=
  ⟨AuthType.Email, "user@example.com", some "sig", some 1, none, none⟩

/-- Sample wallet login request carrying a provider. -/
def walletReq : LoginParams :=
  ⟨AuthType.WalletAddress, "0xabc", some "sig", some 1, none, some ethProv⟩

/-- C8: calling `destroy()` twice in a row, from any state including a
partially initialized instance, produces the same observable end-state as
calling it once; the second call throws no error (`destroy` is a total
function of the state with no throwing path). -/
theorem claim_C8_destroy_idempotent (s : EmbedState) :
    destroy (destroy s) = destroy s := by
  cases s
  simp [destroy]

/-- C2 counterexample: `destroy()` does not clear the session fields
`connectedAddress` and `connectedProvider` — on a state holding a wallet
login they survive destruction instead of returning to their pristine
values `""` and `none`. -/
theorem claim_C2_counterexample :
    (destroy dirtyState).connectedAddress = "0xabc" ∧
    (destroy dirtyState).connectedAddress ≠ "" ∧
    (destroy dirtyState).connectedProvider = some ethProv ∧
    (destroy dirtyState).connectedProvider ≠ none := by
  refine ⟨rfl, by decide, rfl, by decide⟩

/-- C2 (amended): after `destroy()` returns, the connection is torn down,
`currentRoute` and `initialized` are cleared, the provider registry and
watcher timer are reset, the event-forwarding bookkeeping is cleared and
the iframe is detached from its container — but `connectedAddress` and
`connectedProvider` keep their prior values.  The hypothesis is the state
coherence the class maintains: the iframe sits in a container only when
both references are non-null. -/
theorem claim_C2_destroy_end_state (s : EmbedState)
    (h : s.iframeInContainer = true → s.iframeAttached = true ∧ s.containerSet = true) :
    (destroy s).penpal = false ∧
    (destroy s).penpalConnection = false ∧
    (destroy s).initialized = false ∧
    (destroy s).currentRoute = "" ∧
    (destroy s).availableProviders = [] ∧
    (destroy s).eventListeners = [] ∧
    (destroy s).walletWatcher = none ∧
    (destroy s).iframeAttached = false ∧
    (destroy s).containerSet = false ∧
    (destroy s).iframeInContainer = false ∧
    (destroy s).connectedAddress = s.connectedAddress ∧
    (destroy s).connectedProvider = s.connectedProvider := by
  refine ⟨rfl, rfl, rfl, rfl, rfl, rfl, rfl, rfl, rfl, ?_, rfl, rfl⟩
  by_cases hin : s.iframeInContainer = true
  · obtain ⟨h₁, h₂⟩ := h hin
    simp [destroy, h₁, h₂]
  · simp only [Bool.not_eq_true] at hin
    simp [destroy, hin]

/-- C2 witness: the amended destroy theorem applied to the sample dirty
state. -/
theorem claim_C2_destroy_end_state_witness :
    (dirtyState.iframeInContainer = true →
      dirtyState.iframeAttached = true ∧ dirtyState.containerSet = true) ∧
    (destroy dirtyState).currentRoute = "" ∧
    (destroy dirtyState).connectedAddress = dirtyState.connectedAddress := by
  refine ⟨by decide, ?_, ?_⟩
  · exact (claim_C2_destroy_end_state dirtyState (by decide)).2.2.2.1
  · exact (claim_C2_destroy_end_state dirtyState (by decide)).2.2.2.2.2.2.2.2.2.2.1

/-- C3: every guest-delegating public method (`login`, `logout`,
`isAuthorized`, `setRoute`) called while the remote proxy is not
established fails with the "not initialized" error, leaves the instance
state untouched and sends no remote call (the error branch carries the
unchanged input state and no message). -/
theorem claim_C3_not_initialized_no_side_effect (s : EmbedState)
    (req : LoginParams) (clearAuth : Option Bool) (t : AuthType) (a r : String)
    (h : s.penpal = false) :
    login s req = (s, Except.error notInitializedMsg) ∧
    logout s clearAuth = (s, Except.error notInitializedMsg) ∧
    isAuthorized s t a = (s, Except.error notInitializedMsg) ∧
    setRoute s r = (s, Except.error notInitializedMsg) := by
  refine ⟨?_, ?_, ?_, ?_⟩ <;> simp [login, logout, isAuthorized, setRoute, h]

/-- C3 witness: on a freshly constructed instance (proxy absent) the
login call fails with the "not initialized" error and no effect. -/
theorem claim_C3_not_initialized_no_side_effect_witness :
    initialState.penpal = false ∧
    login initialState emailReq = (initialState, Except.error notInitializedMsg) := by
  exact ⟨rfl,
    (claim_C3_not_initialized_no_side_effect initialState emailReq none
      AuthType.Email "user@example.com" "/profile" rfl).1⟩

/-- C9: with the proxy established, `login` throws the missing-provider
error before any session-field mutation (the error branch returns the
unchanged state); in every other case the session fields are written in
the very state in which the remote login call is issued — the returned
state is final regardless of the guest's resolution, so a guest-side
rejection leaves the written values in place. -/
theorem claim_C9_login_writes_before_delegation (s : EmbedState)
    (req : LoginParams) (h : s.penpal = true) :
    (req.type = AuthType.WalletAddress → req.provider = none →
      login s req = (s, Except.error walletProviderRequiredMsg)) ∧
    (∀ p, req.type = AuthType.WalletAddress → req.provider = some p →
      login s req =
        ({ s with connectedAddress := req.account, connectedProvider := some p },
         Except.ok (loginMsg req))) ∧
    (req.type = AuthType.Email →
      login s req =
        ({ s with connectedAddress := "", connectedProvider := none },
         Except.ok (loginMsg req))) := by
  refine ⟨?_, ?_, ?_⟩
  · intro ht hp
    simp [login, h, ht, hp]
  · intro p ht hp
    simp [login, h, ht, hp]
  · intro ht
    simp [login, h, ht]

/-- C9 witness: a wallet login on the ready state writes the session
fields into the state in which the remote call is issued. -/
theorem claim_C9_login_writes_before_delegation_witness :
    readyState.penpal = true ∧
    login readyState walletReq =
      ({ readyState with connectedAddress := "0xabc", connectedProvider := some ethProv },
       Except.ok (loginMsg walletReq)) := by
  exact ⟨rfl,
    (claim_C9_login_writes_before_delegation readyState walletReq rfl).2.1 ethProv rfl rfl⟩

/-- C4 counterexample: on a state whose current route is empty (the
pristine value of `_currentRoute`), `requestOauth("twitter", "state123")`
navigates but performs no storage write at all — the saved-route slot
stays `none` instead of receiving the current route, because the source
guards the write with `if (this._currentRoute)`. -/
theorem claim_C4_counterexample :
    readyState.currentRoute = "" ∧
    requestOauth none readyState none "twitter" "state123" "https://host.example/page" =
      Except.ok ⟨none,
        ⟨"https://stage.generalauthservice.com" ++ "/twitter", "state123",
         "https://host.example/page"⟩⟩ ∧
    (none : Option String) ≠ some readyState.currentRoute := by
  refine ⟨rfl, rfl, by decide⟩

/-- C4 (amended): for every name in the fixed SNS map, `requestOauth`
writes the current route to the saved-route slot when that route is
non-empty (and leaves the slot untouched when it is empty) and then
navigates to `{oauthToolUrl}{providerPath}?state={state}&from={href}`;
for every name outside the map it throws the "invalid sns type" error
before any storage write or navigation. -/
theorem claim_C4_requestOauth (oauthToolUrl : Option String) (s : EmbedState)
    (savedRoute : Option String) (snsType state href path : String) :
    (snsPathMap snsType = some path →
      requestOauth oauthToolUrl s savedRoute snsType state href =
        Except.ok ⟨(if s.currentRoute ≠ "" then some s.currentRoute else savedRoute),
          ⟨oauthToolUrl.getD "https://stage.generalauthservice.com" ++ path, state, href⟩⟩) ∧
    (snsPathMap snsType = none →
      requestOauth oauthToolUrl s savedRoute snsType state href =
        Except.error ("Invalid sns type: " ++ snsType)) := by
  constructor <;> intro h <;> simp [requestOauth, h]

/-- C4 witness: on the sample dirty state (non-empty current route) the
twitter request saves the route and navigates, and the unmapped name
"myspace" fails with the validation error. -/
theorem claim_C4_requestOauth_witness :
    snsPathMap "twitter" = some "/twitter" ∧
    requestOauth none dirtyState none "twitter" "state123" "https://host.example/page" =
      Except.ok ⟨some "/task/1",
        ⟨"https://stage.generalauthservice.com" ++ "/twitter", "state123",
         "https://host.example/page"⟩⟩ ∧
    snsPathMap "myspace" = none ∧
    requestOauth none dirtyState none "myspace" "state123" "https://host.example/page" =
      Except.error ("Invalid sns type: " ++ "myspace") := by
  refine ⟨rfl, ?_, rfl, ?_⟩
  · simpa using
      (claim_C4_requestOauth none dirtyState none "twitter" "state123"
        "https://host.example/page" "/twitter").1 rfl
  · exact
      (claim_C4_requestOauth none dirtyState none "myspace" "state123"
        "https://host.example/page" "/twitter").2 rfl

/-- C1: evaluation of the code at the failing input of the claim — two
sequential `subscribeWalletEvents("ethereum", "accountsChanged", "L1")`
calls overwrite the single bookkeeping slot, yet both forwarding closures
stay attached to the underlying provider, so firing the provider event
forwards to the guest twice, not once.  This contradicts the stated
at-most-one-handler invariant: the first closure has leaked and can no
longer be detached. -/
theorem claim_C1_duplicate_subscribe_forwards_twice :
    (fireEvent
      (subscribeWalletEvents ethWin
        (subscribeWalletEvents ethWin readyState "ethereum" "accountsChanged" "L1")
        "ethereum" "accountsChanged" "L1")
      "window.ethereum" "accountsChanged" ["0xabc"]).length = 2 ∧
    (tripleListeners
      (subscribeWalletEvents ethWin
        (subscribeWalletEvents ethWin readyState "ethereum" "accountsChanged" "L1")
        "ethereum" "accountsChanged" "L1")
      "ethereum" "accountsChanged" "L1").length = 2 ∧
    alistGet (handlersKey "ethereum")
      (subscribeWalletEvents ethWin
        (subscribeWalletEvents ethWin readyState "ethereum" "accountsChanged" "L1")
        "ethereum" "accountsChanged" "L1").eventListeners =
      some [(eventKey "accountsChanged" "L1", ⟨1, "ethereum", "accountsChanged", "L1"⟩)] := by
  refine ⟨by decide, by decide, by decide⟩

/-- Lookup after an update at the same key returns the new value. -/
theorem alistGet_alistSet_self {α : Type} (k : String) (v : α) (l : List (String × α)) :
    alistGet k (alistSet k v l) = some v := by
  induction l with
  | nil => simp [alistSet, alistGet]
  | cons hd tl ih =>
    obtain ⟨k₁, v₁⟩ := hd
    by_cases hk : k₁ = k
    · subst hk
      simp [alistSet, alistGet]
    · simp [alistSet, alistGet, hk, ih]

/-- Two updates at the same key collapse to the outer one. -/
theorem alistSet_alistSet_self {α : Type} (k : String) (v w : α) (l : List (String × α)) :
    alistSet k v (alistSet k w l) = alistSet k v l := by
  induction l with
  | nil => simp [alistSet]
  | cons hd tl ih =>
    obtain ⟨k₁, v₁⟩ := hd
    by_cases hk : k₁ = k
    · subst hk
      simp [alistSet]
    · simp [alistSet, hk, ih]

/-- Lookup of an absent key fails. -/
theorem alistGet_eq_none_of_not_mem {α : Type} (k : String) (l : List (String × α))
    (h : k ∉ l.map Prod.fst) : alistGet k l = none := by
  induction l with
  | nil => rfl
  | cons hd tl ih =>
    obtain ⟨k₁, v₁⟩ := hd
    simp only [List.map_cons, List.mem_cons, not_or] at h
    have hk : k₁ ≠ k := fun he => h.1 he.symm
    simp [alistGet, hk, ih h.2]

/-- Deleting a key right after setting it removes it entirely on a
duplicate-free association list. -/
theorem alistGet_alistDelete_alistSet {α : Type} (k : String) (v : α)
    (l : List (String × α)) (h : keysNodup l) :
    alistGet k (alistDelete k (alistSet k v l)) = none := by
  induction l with
  | nil => simp [alistSet, alistDelete, alistGet]
  | cons hd tl ih =>
    obtain ⟨k₁, v₁⟩ := hd
    simp only [keysNodup, List.map_cons, List.nodup_cons] at h
    by_cases hk : k₁ = k
    · subst hk
      simp [alistSet, alistDelete]
      exact alistGet_eq_none_of_not_mem _ _ h.1
    · simp [alistSet, alistDelete, alistGet, hk]
      exact ih h.2

/-- Removing the first occurrence of a freshly appended element recovers
the original list. -/
theorem removeFirst_append_singleton {α : Type} [DecidableEq α] (x : α) (l : List α)
    (h : x ∉ l) : removeFirst x (l ++ [x]) = l := by
  induction l with
  | nil => simp [removeFirst]
  | cons y tl ih =>
    simp only [List.mem_cons, not_or] at h
    have hyx : y ≠ x := fun he => h.1 he.symm
    simp [removeFirst, hyx, ih h.2]

/-- Membership in a list whose filtrate is empty is impossible for an
element satisfying the filter. -/
theorem not_mem_of_filter_eq_nil {α : Type} (p : α → Bool) (l : List α) (x : α)
    (hl : l.filter p = []) (hx : p x = true) : x ∉ l := by
  intro hmem
  have hmem₁ : x ∈ l.filter p := List.mem_filter.mpr ⟨hmem, hx⟩
  rw [hl] at hmem₁
  cases hmem₁

/-- Keys present before an `alistSet` remain present after it. -/
theorem mem_alistKeys_alistSet {α : Type} (k k₁ : String) (v : α)
    (l : List (String × α)) (h : k₁ ∈ alistKeys l) :
    k₁ ∈ alistKeys (alistSet k v l) := by
  induction l with
  | nil => simp [alistKeys] at h
  | cons hd tl ih =>
    obtain ⟨k₂, v₂⟩ := hd
    simp only [alistKeys, List.map_cons, List.mem_cons] at h
    by_cases hk : k₂ = k
    · subst hk
      simp only [alistSet, if_true, eq_self_iff_true, alistKeys, List.map_cons,
        List.mem_cons]
      exact h
    · simp only [alistSet, if_neg hk, alistKeys, List.map_cons, List.mem_cons]
      rcases h with h | h
      · exact Or.inl h
      · exact Or.inr (ih h)

/-- Keys of an accumulator survive the conditional-assignment fold of the
watcher tick. -/
theorem mem_alistKeys_foldl_assign (cur : List (String × WinVal)) (ks : List String)
    (l : List (String × WinVal)) (k : String) (h : k ∈ alistKeys l) :
    k ∈ alistKeys (ks.foldl
      (fun acc k₁ =>
        match alistGet k₁ cur with
        | some v => alistSet k₁ v acc
        | none => acc)
      l) := by
  induction ks generalizing l with
  | nil => exact h
  | cons hd tl ih =>
    simp only [List.foldl_cons]
    cases halist : alistGet hd cur with
    | none =>
      simp only [halist]
      exact ih l h
    | some v =>
      simp only [halist]
      exact ih _ (mem_alistKeys_alistSet hd k v l h)

/-- Keys of the registry survive the additions of a watcher tick. -/
theorem mem_alistKeys_updatedProviders (win : List (String × WinVal)) (s : EmbedState)
    (k : String) (h : k ∈ alistKeys s.availableProviders) :
    k ∈ alistKeys (updatedProviders win s) :=
  mem_alistKeys_foldl_assign (detectWalletProviders win) (newProviderKeys win s)
    s.availableProviders k h

/-- Registry keys are never removed by a watcher tick. -/
theorem watcherTick_registry_mono (win : List (String × WinVal)) (s : EmbedState)
    (k : String) (h : k ∈ alistKeys s.availableProviders) :
    k ∈ alistKeys ((watcherTick win s).1).availableProviders := by
  unfold watcherTick
  by_cases hempty : (newProviderKeys win s).isEmpty
  · simp only [hempty, if_true]
    exact h
  · simp only [hempty, if_false, Bool.false_eq_true]
    by_cases hguard : s.iframeAttached && s.penpal
    · simp only [hguard, if_true]
      exact mem_alistKeys_updatedProviders win s k h
    · simp only [hguard, if_false, Bool.false_eq_true]
      exact mem_alistKeys_updatedProviders win s k h

/-- When a tick notifies the guest, the notified list is exactly the full
key list of the post-tick registry. -/
theorem watcherTick_note_is_full_list (win : List (String × WinVal)) (s : EmbedState)
    (l : List String) (h : (watcherTick win s).2 = some l) :
    l = alistKeys ((watcherTick win s).1).availableProviders := by
  unfold watcherTick at h ⊢
  by_cases hempty : (newProviderKeys win s).isEmpty
  · simp only [hempty, if_true] at h
    cases h
  · simp only [hempty, if_false, Bool.false_eq_true] at h ⊢
    by_cases hguard : s.iframeAttached && s.penpal
    · simp only [hguard, if_true] at h ⊢
      exact (Option.some_inj.mp h).symm
    · simp only [hguard, if_false, Bool.false_eq_true] at h
      cases h

/-- C5: across one watcher tick the registry's key set only ever grows,
every sent notification carries the full current key list rather than a
delta, and consequently the list notified on tick n+1 is a superset of
the list notified on tick n. -/
theorem claim_C5_registry_monotone_full_notification
    (win : List (String × WinVal)) (s : EmbedState) :
    (∀ k, k ∈ alistKeys s.availableProviders →
      k ∈ alistKeys ((watcherTick win s).1).availableProviders) ∧
    (∀ l, (watcherTick win s).2 = some l →
      l = alistKeys ((watcherTick win s).1).availableProviders) ∧
    (∀ win₂ l₁ l₂, (watcherTick win s).2 = some l₁ →
      (watcherTick win₂ (watcherTick win s).1).2 = some l₂ →
      ∀ k, k ∈ l₁ → k ∈ l₂) := by
  refine ⟨fun k => watcherTick_registry_mono win s k,
    fun l => watcherTick_note_is_full_list win s l, ?_⟩
  intro win₂ l₁ l₂ h₁ h₂ k hk
  rw [watcherTick_note_is_full_list win s l₁ h₁] at hk
  rw [watcherTick_note_is_full_list win₂ ((watcherTick win s).1) l₂ h₂]
  exact watcherTick_registry_mono win₂ ((watcherTick win s).1) k hk

/-- Sample window for the second watcher tick: `okxwallet` appears next
to the already known `ethereum`. -/
def ethOkxWin : List (String × WinVal) :=
  [("ethereum", WinVal.prov ethProv), ("okxwallet", WinVal.prov ⟨"window.okxwallet", true, true⟩)]

/-- C5 witness: two concrete consecutive ticks from an empty registry,
first detecting `ethereum`, then additionally `okxwallet`; both notify
the full list and the second list contains the first. -/
theorem claim_C5_registry_monotone_full_notification_witness :
    (watcherTick ethWin readyState).2 = some ["ethereum"] ∧
    (watcherTick ethOkxWin ((watcherTick ethWin readyState).1)).2 =
      some ["ethereum", "okxwallet"] ∧
    ∀ k, k ∈ ["ethereum"] → k ∈ ["ethereum", "okxwallet"] := by
  refine ⟨rfl, rfl, ?_⟩
  intro k hk
  exact (claim_C5_registry_monotone_full_notification ethWin readyState).2.2
    ethOkxWin ["ethereum"] ["ethereum", "okxwallet"] rfl rfl k hk

/-- C7: resolution of a dotted provider key traverses the host global
segment by segment; when the outer segment exists but the inner one is
absent, `requestWalletProvider` fails with the "provider not found" error
for the full key (the total traversal function returns `none` instead of
raising a raw access error), and when both segments exist the resolved
capability receives the request. -/
theorem claim_C7_dotted_key_resolution (win : List (String × WinVal))
    (key o i m : String) (ps : List String) (v : WinVal)
    (hdot : containsDot key = true)
    (hsplit : splitOnDot key = [o, i])
    (houter : alistGet o win = some v) :
    (fieldGet i v = none →
      requestWalletProvider win key m ps =
        Except.error ("Provider " ++ key ++ " not found")) ∧
    (∀ v₁, fieldGet i v = some v₁ →
      requestWalletProvider win key m ps = Except.ok (v₁, m, ps)) := by
  have hres : getOriginalProvider win key = traverse (WinVal.obj win) [o, i] := by
    simp [getOriginalProvider, hdot, hsplit]
  have houter₁ : fieldGet o (WinVal.obj win) = some v := by
    simpa [fieldGet] using houter
  constructor
  · intro hinner
    simp [requestWalletProvider, hres, traverse, houter₁, hinner]
  · intro v₁ hinner
    simp [requestWalletProvider, hres, traverse, houter₁, hinner]

/-- Sample window holding a `bitkeep` object without an `ethereum`
field. -/
def bitkeepWin : List (String × WinVal) :=
  [("bitkeep", WinVal.obj [])]

/-- C7 witness: with `window.bitkeep` present but `bitkeep.ethereum`
absent, the dotted request fails with the "provider not found" error. -/
theorem claim_C7_dotted_key_resolution_witness :
    containsDot "bitkeep.ethereum" = true ∧
    splitOnDot "bitkeep.ethereum" = ["bitkeep", "ethereum"] ∧
    alistGet "bitkeep" bitkeepWin = some (WinVal.obj []) ∧
    fieldGet "ethereum" (WinVal.obj []) = none ∧
    requestWalletProvider bitkeepWin "bitkeep.ethereum" "eth_chainId" [] =
      Except.error ("Provider " ++ "bitkeep.ethereum" ++ " not found") := by
  refine ⟨by decide, by decide, rfl, rfl, ?_⟩
  exact (claim_C7_dotted_key_resolution bitkeepWin "bitkeep.ethereum" "bitkeep"
    "ethereum" "eth_chainId" [] (WinVal.obj []) (by decide) (by decide) rfl).1 rfl

/-- C10: provider resolution for the guest-invoked wallet operations reads
only the live window: changing the registry field of the state changes
nothing in the behaviour of `subscribeWalletEvents` and
`unsubscribeWalletEvents` (their output merely carries whatever registry
the input held), `requestWalletProvider` resolves a window-present key
against the empty registry of `readyState`, a subscribe succeeds with the
registry empty, and a registry entry without a backing window object does
not make resolution succeed. -/
theorem claim_C10_resolution_reads_live_window :
    (∀ win s r pk ev lid,
      subscribeWalletEvents win { s with availableProviders := r } pk ev lid =
        { subscribeWalletEvents win s pk ev lid with availableProviders := r }) ∧
    (∀ win s r pk ev lid,
      unsubscribeWalletEvents win { s with availableProviders := r } pk ev lid =
        { unsubscribeWalletEvents win s pk ev lid with availableProviders := r }) ∧
    readyState.availableProviders = [] ∧
    requestWalletProvider ethWin "ethereum" "eth_chainId" [] =
      Except.ok (WinVal.prov ethProv, "eth_chainId", []) ∧
    (subscribeWalletEvents ethWin readyState "ethereum" "accountsChanged" "L1").provListeners =
      [(ethProv.id, "accountsChanged", ⟨0, "ethereum", "accountsChanged", "L1"⟩)] ∧
    requestWalletProvider [] "ethereum" "eth_chainId" [] =
      Except.error ("Provider " ++ "ethereum" ++ " not found") ∧
    subscribeWalletEvents []
      { readyState with availableProviders := [("ethereum", WinVal.prov ethProv)] }
      "ethereum" "accountsChanged" "L1" =
      { readyState with availableProviders := [("ethereum", WinVal.prov ethProv)] } := by
  refine ⟨?_, ?_, rfl, rfl, rfl, rfl, rfl⟩
  · intro win s r pk ev lid
    cases hres : getOriginalProvider win pk with
    | none => simp [subscribeWalletEvents, hres]
    | some v =>
      cases v with
      | obj fs => simp [subscribeWalletEvents, hres]
      | prov p =>
        by_cases hOn : p.hasOn
        · simp [subscribeWalletEvents, hres, hOn]
        · simp [subscribeWalletEvents, hres, hOn]
  · intro win s r pk ev lid
    cases hres : getOriginalProvider win pk with
    | none => simp [unsubscribeWalletEvents, hres]
    | some v =>
      cases v with
      | obj fs => simp [unsubscribeWalletEvents, hres]
      | prov p =>
        cases hmap : alistGet (handlersKey pk) s.eventListeners with
        | none => simp [unsubscribeWalletEvents, hres, hmap]
        | some m =>
          by_cases hRem : p.hasRemoveListener
          · cases hh : alistGet (eventKey ev lid) m with
            | none => simp [unsubscribeWalletEvents, hres, hmap, hRem, hh]
            | some handler => simp [unsubscribeWalletEvents, hres, hmap, hRem, hh]
          · simp [unsubscribeWalletEvents, hres, hmap, hRem]

/-- Closed form of `subscribeWalletEvents` when the key resolves to a
provider exposing `on`: the inner bookkeeping slot is overwritten with a
fresh closure and that closure is attached to the provider. -/
theorem subscribeWalletEvents_eq (win : List (String × WinVal)) (s : EmbedState)
    (pk ev lid : String) (p : Provider)
    (hprov : getOriginalProvider win pk = some (WinVal.prov p))
    (hOn : p.hasOn = true) :
    subscribeWalletEvents win s pk ev lid =
      { s with
        eventListeners :=
          alistSet (handlersKey pk)
            (alistSet (eventKey ev lid) ⟨s.nextStamp, pk, ev, lid⟩
              ((alistGet (handlersKey pk) s.eventListeners).getD []))
            s.eventListeners
        provListeners :=
          s.provListeners ++ [(p.id, ev, ⟨s.nextStamp, pk, ev, lid⟩)]
        nextStamp := s.nextStamp + 1 } := by
  cases hmap : alistGet (handlersKey pk) s.eventListeners with
  | none =>
    simp [subscribeWalletEvents, hprov, hOn, hmap, alistGet_alistSet_self,
      alistSet_alistSet_self]
  | some m =>
    simp [subscribeWalletEvents, hprov, hOn, hmap]

/-- Closed form of `unsubscribeWalletEvents` when the key resolves to a
provider exposing `removeListener`, the bookkeeping map exists and holds
a handler for the pair: that exact handler is detached and the slot
deleted. -/
theorem unsubscribeWalletEvents_eq (win : List (String × WinVal)) (s : EmbedState)
    (pk ev lid : String) (p : Provider) (m : List (String × Handler)) (handler : Handler)
    (hprov : getOriginalProvider win pk = some (WinVal.prov p))
    (hRem : p.hasRemoveListener = true)
    (hmap : alistGet (handlersKey pk) s.eventListeners = some m)
    (hhandler : alistGet (eventKey ev lid) m = some handler) :
    unsubscribeWalletEvents win s pk ev lid =
      { s with
        provListeners := removeFirst (p.id, ev, handler) s.provListeners
        eventListeners :=
          alistSet (handlersKey pk) (alistDelete (eventKey ev lid) m)
            s.eventListeners } := by
  simp [unsubscribeWalletEvents, hprov, hRem, hmap, hhandler]

/-- An `unsubscribeWalletEvents` whose pair has no bookkeeping entry is a
no-op. -/
theorem unsubscribeWalletEvents_noop (win : List (String × WinVal)) (s : EmbedState)
    (pk ev lid : String) (p : Provider) (m : List (String × Handler))
    (hprov : getOriginalProvider win pk = some (WinVal.prov p))
    (hmap : alistGet (handlersKey pk) s.eventListeners = some m)
    (hnone : alistGet (eventKey ev lid) m = none) :
    unsubscribeWalletEvents win s pk ev lid = s := by
  by_cases hRem : p.hasRemoveListener <;>
    simp [unsubscribeWalletEvents, hprov, hmap, hnone, hRem]

/-- C6: from a state holding no forwarding handler for the triple (and
well-formed bookkeeping), `subscribeWalletEvents` followed by
`unsubscribeWalletEvents` with the identical triple leaves zero forwarding
handlers attached for that triple and no bookkeeping slot for it, and a
second `unsubscribeWalletEvents` with the same triple is a no-op: it
returns the state unchanged and throws nothing (the function is total). -/
theorem claim_C6_subscribe_unsubscribe_roundtrip (win : List (String × WinVal))
    (s : EmbedState) (pk ev lid : String) (p : Provider)
    (hprov : getOriginalProvider win pk = some (WinVal.prov p))
    (hOn : p.hasOn = true)
    (hRem : p.hasRemoveListener = true)
    (hclean : tripleListeners s pk ev lid = [])
    (hnodup : ∀ m, alistGet (handlersKey pk) s.eventListeners = some m → keysNodup m) :
    tripleListeners
      (unsubscribeWalletEvents win (subscribeWalletEvents win s pk ev lid) pk ev lid)
      pk ev lid = [] ∧
    (∀ m, alistGet (handlersKey pk)
        (unsubscribeWalletEvents win (subscribeWalletEvents win s pk ev lid)
          pk ev lid).eventListeners = some m →
      alistGet (eventKey ev lid) m = none) ∧
    unsubscribeWalletEvents win
      (unsubscribeWalletEvents win (subscribeWalletEvents win s pk ev lid) pk ev lid)
      pk ev lid =
      unsubscribeWalletEvents win (subscribeWalletEvents win s pk ev lid) pk ev lid := by
  have hsub := subscribeWalletEvents_eq win s pk ev lid p hprov hOn
  have hm₀ : keysNodup ((alistGet (handlersKey pk) s.eventListeners).getD []) := by
    cases hmap : alistGet (handlersKey pk) s.eventListeners with
    | none => simp [keysNodup]
    | some m => simpa using hnodup m hmap
  have hmap₁ : alistGet (handlersKey pk)
      (subscribeWalletEvents win s pk ev lid).eventListeners =
      some (alistSet (eventKey ev lid) ⟨s.nextStamp, pk, ev, lid⟩
        ((alistGet (handlersKey pk) s.eventListeners).getD [])) := by
    rw [hsub]
    exact alistGet_alistSet_self _ _ _
  have hh₁ : alistGet (eventKey ev lid)
      (alistSet (eventKey ev lid) ⟨s.nextStamp, pk, ev, lid⟩
        ((alistGet (handlersKey pk) s.eventListeners).getD [])) =
      some ⟨s.nextStamp, pk, ev, lid⟩ :=
    alistGet_alistSet_self _ _ _
  have hunsub := unsubscribeWalletEvents_eq win (subscribeWalletEvents win s pk ev lid)
    pk ev lid p _ _ hprov hRem hmap₁ hh₁
  have hnotmem : (p.id, ev, (⟨s.nextStamp, pk, ev, lid⟩ : Handler)) ∉ s.provListeners := by
    apply not_mem_of_filter_eq_nil _ _ _ hclean
    simp
  have hpl : (unsubscribeWalletEvents win (subscribeWalletEvents win s pk ev lid)
      pk ev lid).provListeners = s.provListeners := by
    rw [hunsub, hsub]
    exact removeFirst_append_singleton _ _ hnotmem
  have hdel : alistGet (eventKey ev lid)
      (alistDelete (eventKey ev lid)
        (alistSet (eventKey ev lid) ⟨s.nextStamp, pk, ev, lid⟩
          ((alistGet (handlersKey pk) s.eventListeners).getD []))) = none :=
    alistGet_alistDelete_alistSet _ _ _ hm₀
  have hmap₂ : alistGet (handlersKey pk)
      (unsubscribeWalletEvents win (subscribeWalletEvents win s pk ev lid)
        pk ev lid).eventListeners =
      some (alistDelete (eventKey ev lid)
        (alistSet (eventKey ev lid) ⟨s.nextStamp, pk, ev, lid⟩
          ((alistGet (handlersKey pk) s.eventListeners).getD []))) := by
    rw [hunsub]
    exact alistGet_alistSet_self _ _ _
  refine ⟨?_, ?_, ?_⟩
  · unfold tripleListeners
    rw [hpl]
    exact hclean
  · intro m hm
    rw [hmap₂] at hm
    rw [← Option.some_inj.mp hm]
    exact hdel
  · exact unsubscribeWalletEvents_noop win _ pk ev lid p _ hprov hmap₂ hdel

/-- C6 witness: the round trip on the concrete ready state and the sample
`ethereum` provider. -/
theorem claim_C6_subscribe_unsubscribe_roundtrip_witness :
    getOriginalProvider ethWin "ethereum" = some (WinVal.prov ethProv) ∧
    tripleListeners readyState "ethereum" "accountsChanged" "L1" = [] ∧
    tripleListeners
      (unsubscribeWalletEvents ethWin
        (subscribeWalletEvents ethWin readyState "ethereum" "accountsChanged" "L1")
        "ethereum" "accountsChanged" "L1")
      "ethereum" "accountsChanged" "L1" = [] ∧
    unsubscribeWalletEvents ethWin
      (unsubscribeWalletEvents ethWin
        (subscribeWalletEvents ethWin readyState "ethereum" "accountsChanged" "L1")
        "ethereum" "accountsChanged" "L1")
      "ethereum" "accountsChanged" "L1" =
      unsubscribeWalletEvents ethWin
        (subscribeWalletEvents ethWin readyState "ethereum" "accountsChanged" "L1")
        "ethereum" "accountsChanged" "L1" := by
  have hnodup : ∀ m, alistGet (handlersKey "ethereum") readyState.eventListeners =
      some m → keysNodup m := by
    intro m hm
    simp [readyState, initialState, alistGet] at hm
  refine ⟨rfl, rfl, ?_, ?_⟩
  · exact (claim_C6_subscribe_unsubscribe_roundtrip ethWin readyState "ethereum"
      "accountsChanged" "L1" ethProv rfl rfl rfl rfl hnodup).1
  · exact (claim_C6_subscribe_unsubscribe_roundtrip ethWin readyState "ethereum"
      "accountsChanged" "L1" ethProv rfl rfl rfl rfl hnodup).2.2

end TaskonEmbed
